import Mathlib

/-!
Verification development for the matching-engine RAG pipeline
(`rag_query.py`).  The Python source is shallowly embedded: strings are
lists of characters, the mutable session object is an explicit record,
every call to an external collaborator (file system, directory reader,
vector index construction, retrieval query engine, chat model) goes
through an oracle record `World`, and Python exceptions are values of an
explicit error type threaded through `Except`.
-/

/-- Python strings are modelled as lists of characters. -/
abbrev Str := List Char

/-- Coerce a Lean string literal into the character-list model. -/
def str (s : String) : Str := s.toList

/-- Python `str.strip()`: remove whitespace from both ends. -/
def pyStrip (s : Str) : Str :=
  ((s.dropWhile Char.isWhitespace).reverse.dropWhile Char.isWhitespace).reverse

/-- Modelled from the spec: the repository configures the library text
splitter (`SimpleNodeParser.from_defaults`, chunk_size 1024,
chunk_overlap 20, `rag_query.py` lines 51-54) whose implementation is
not part of the source tree.  Following the specification, a document
text is split by a fixed window of `size` units advancing by
`size - step`-complement steps: each chunk starts `size - overlap`
units after the previous one; the final chunk may be shorter.  `fuel`
bounds the recursion and is instantiated with the text length. -/
def chunksGo (size step : Nat) : Nat → List α → List (List α)
  | 0, l => [l]
  | fuel+1, l =>
    if l.length ≤ size then [l]
    else l.take size :: chunksGo size step fuel (l.drop step)

/-- Modelled from the spec: split a text into fixed-size chunks of
`size` units, each advancing by `size - overlap` units. -/
def chunkText (size overlap : Nat) (l : List α) : List (List α) :=
  chunksGo size (size - overlap) l.length l

/-- Remove the leading `overlap` units from every chunk after the first
and concatenate: the inverse of chunking. -/
def dechunk (overlap : Nat) : List (List α) → List α
  | [] => []
  | c :: cs => c ++ (cs.map (List.drop overlap)).flatten

theorem chunksGo_join_drop (size overlap : Nat) (h : overlap ≤ size) (fuel : Nat) :
    ∀ l : List α,
      ((chunksGo size (size - overlap) fuel l).map (List.drop overlap)).flatten
        = l.drop overlap := by
  induction fuel with
  | zero => intro l; simp [chunksGo]
  | succ n ih =>
    intro l
    by_cases hl : l.length ≤ size
    · simp [chunksGo, hl]
    · simp only [chunksGo, if_neg hl, List.map_cons, List.flatten_cons, ih]
      rw [List.drop_take, List.drop_drop]
      have h1 : size - overlap + overlap = size := by omega
      rw [h1]
      have h4 : List.drop size l = List.drop (size - overlap) (List.drop overlap l) := by
        rw [List.drop_drop]; congr 1; omega
      rw [h4]
      exact List.take_append_drop _ _

theorem dechunk_chunksGo (size overlap : Nat) (h : overlap ≤ size) (fuel : Nat) :
    ∀ l : List α, dechunk overlap (chunksGo size (size - overlap) fuel l) = l := by
  cases fuel with
  | zero => intro l; simp [chunksGo, dechunk]
  | succ n =>
    intro l
    by_cases hl : l.length ≤ size
    · simp [chunksGo, hl, dechunk]
    · simp only [chunksGo, if_neg hl, dechunk]
      rw [chunksGo_join_drop size overlap h n, List.drop_drop]
      have h1 : size - overlap + overlap = size := by omega
      rw [h1, List.take_append_drop]

theorem chunksGo_head_take (size overlap : Nat) (h : overlap ≤ size) (fuel : Nat)
    (l : List α) :
    ∀ b ∈ (chunksGo size (size - overlap) fuel l).head?, b.take overlap = l.take overlap := by
  cases fuel with
  | zero => intro b hb; simp [chunksGo] at hb; simp [hb]
  | succ n =>
    intro b hb
    by_cases hl : l.length ≤ size
    · simp [chunksGo, hl] at hb; simp [hb]
    · simp only [chunksGo, if_neg hl, List.head?_cons, Option.mem_def,
        Option.some.injEq] at hb
      subst hb
      rw [List.take_take, Nat.min_eq_left h]

theorem chunksGo_chain (size overlap : Nat) (h : overlap ≤ size) (fuel : Nat) :
    ∀ l : List α,
      List.Chain' (fun a b => a.length = size ∧ a.drop (size - overlap) = b.take overlap)
        (chunksGo size (size - overlap) fuel l) := by
  induction fuel with
  | zero => intro l; simp [chunksGo]
  | succ n ih =>
    intro l
    by_cases hl : l.length ≤ size
    · simp [chunksGo, hl]
    · simp only [chunksGo, if_neg hl]
      rw [List.chain'_cons']
      refine ⟨fun b hb => ?_, ih (l.drop (size - overlap))⟩
      have hbt := chunksGo_head_take size overlap h n (l.drop (size - overlap)) b hb
      constructor
      · rw [List.length_take]; omega
      · rw [List.drop_take, hbt]
        have h2 : size - (size - overlap) = overlap := by omega
        rw [h2]

/-- C7: the chunker splits a document text by a fixed window of
`size` units advancing by `size - overlap` each step, so that every
non-final chunk has length exactly `size` and consecutive chunks overlap
in exactly `overlap` units (the final chunk may be shorter), and
concatenating the chunks with overlaps removed reconstructs the original
text exactly. -/
theorem chunking_fixed_window_c7 {α : Type} (size overlap : Nat) (l : List α)
    (h : overlap < size) :
    List.Chain' (fun a b => a.length = size ∧ a.drop (size - overlap) = b.take overlap)
      (chunkText size overlap l) ∧
    dechunk overlap (chunkText size overlap l) = l :=
  ⟨chunksGo_chain size overlap (le_of_lt h) l.length l,
   dechunk_chunksGo size overlap (le_of_lt h) l.length l⟩

/-- Witness for C7: the chunker at size 3, overlap 1 on a concrete text. -/
theorem chunking_fixed_window_c7_witness :
    List.Chain' (fun a b => a.length = 3 ∧ a.drop (3 - 1) = b.take 1)
      (chunkText 3 1 ([1, 2, 3, 4, 5] : List Nat)) ∧
    dechunk 1 (chunkText 3 1 ([1, 2, 3, 4, 5] : List Nat)) = [1, 2, 3, 4, 5] :=
  chunking_fixed_window_c7 3 1 [1, 2, 3, 4, 5] (by decide)

/-- Opaque handle for a built vector index (`VectorStoreIndex`). -/
structure Index where
  id : Nat
deriving DecidableEq

/-- A loaded document (`llama_index` `Document`): text plus a
string-to-string metadata mapping, modelled as an association list. -/
structure Document where
  text : Str
  metadata : List (Str × Str)
deriving DecidableEq

/-- Python exceptions raised by `rag_query.py` or propagated from the
external collaborators. -/
inductive PyErr where
  | valueError (msg : Str)
  | fileNotFoundError (msg : Str)
  | collaborator (msg : Str)
deriving DecidableEq

/-- The message text of an exception (Python `str(e)`). -/
def pyErrMsg : PyErr → Str
  | .valueError m => m
  | .fileNotFoundError m => m
  | .collaborator m => m

/-- One outbound call to a reasoning collaborator: either a retrieval
query-engine call against a built index (`as_query_engine(...).query`,
with its `similarity_top_k`), or a direct chat-completion call
(`Settings.llm.chat`). -/
inductive CallEvent where
  | engineQuery (idx : Index) (topK : Nat) (prompt : Str)
  | llmChat (prompt : Str)
deriving DecidableEq

/-- The external world: environment variables, file system, directory
reader, index construction, retrieval engine and chat model.  Errors
returned by collaborators are plain messages, lifted into
`PyErr.collaborator` by the embedding. -/
structure World where
  env : Str → Option Str
  exists_path : Str → Bool
  readFile : Str → Str
  readDirJava : Str → List Document
  fromDocuments : List Document → Except Str Index
  engineQuery : Index → Nat → Str → Except Str Str
  llmChat : Str → Except Str Str

/-- Lift a collaborator result into the exception model. -/
def liftEx : Except Str α → Except PyErr α
  | .ok a => .ok a
  | .error m => .error (.collaborator m)

/-- The session object (`MatchingEngineRAG`): the two API keys and the
two index handles, each `none` until the corresponding build succeeds. -/
structure RAGState where
  anthropic_api_key : Option Str
  openai_api_key : Option Str
  instrumentation_index : Option Index
  code_index : Option Index
deriving DecidableEq

/-- Python truthiness of an optional string: `None` and the empty
string are falsy. -/
def truthy : Option Str → Bool
  | none => false
  | some s => s ≠ []

/-- Python `a or b` on optional strings. -/
def pyOr (a b : Option Str) : Option Str := if truthy a then a else b

/-- `MatchingEngineRAG.__init__` (lines 25-57): resolve each key from
the argument or the environment, fail with a `ValueError` naming the
missing key (the Anthropic key is checked first), otherwise return a
fresh session whose two index handles do not exist.  Configuring the
LLM, embedding model and node parser only parameterises external
collaborators and has no observable state in the model. -/
def rag_init (w : World) (anthropic_key openai_key : Option Str) : Except PyErr RAGState :=
  let a := pyOr anthropic_key (w.env (str "ANTHROPIC_API_KEY"))
  let o := pyOr openai_key (w.env (str "OPENAI_API_KEY"))
  if truthy a = false then .error (.valueError (str "ANTHROPIC_API_KEY must be set"))
  else if truthy o = false then
    .error (.valueError (str "OPENAI_API_KEY must be set for embeddings"))
  else .ok { anthropic_api_key := a, openai_api_key := o,
             instrumentation_index := none, code_index := none }

/-- The `Document` built from the instrumentation log (lines 71-78). -/
def instrDocument (log_path log_content : Str) : Document :=
  { text := log_content,
    metadata :=
      [(str "source", str "instrumentation_log"),
       (str "file_path", log_path),
       (str "description",
        str "Execution trace of matching engine with function calls, order events, and snapshots")] }

/-- `MatchingEngineRAG.index_instrumentation_log` (lines 59-82).
Returns the session state after the call, the printed lines, and the
outcome.  The handle is assigned only after `from_documents` returns,
so any failure leaves the state untouched. -/
def index_instrumentation_log (w : World) (st : RAGState) (log_path : Str) :
    RAGState × List Str × Except PyErr Unit :=
  let header := str "Indexing instrumentation log: " ++ log_path
  if w.exists_path log_path = false then
    (st, [header], .error (.fileNotFoundError (str "Instrumentation log not found: " ++ log_path)))
  else
    let log_content := w.readFile log_path
    let doc := instrDocument log_path log_content
    match w.fromDocuments [doc] with
    | .error m => (st, [header], .error (.collaborator m))
    | .ok idx =>
      ({ st with instrumentation_index := some idx },
       [header,
        str "Indexed instrumentation log (" ++ str (toString log_content.length)
          ++ str " characters)"],
       .ok ())

/-- Python dict assignment `m[k] = v` on the association-list model:
replace any existing binding for `k` by `v`. -/
def setMeta (m : List (Str × Str)) (k v : Str) : List (Str × Str) :=
  (k, v) :: m.filter (fun p => p.1 ≠ k)

/-- Tag one reader-produced document as source code (lines 110-112):
`doc.metadata["source"] = "source_code"; doc.metadata["language"] = "java"`. -/
def tagCode (d : Document) : Document :=
  let m1 := setMeta d.metadata (str "source") (str "source_code")
  { d with metadata := setMeta m1 (str "language") (str "java") }

/-- The per-directory loop of `index_source_code` (lines 95-115):
directories that do not exist are skipped with a warning; existing
directories contribute their reader documents, tagged as source code.
Returns the collected documents and the printed lines. -/
def scanDirs (w : World) : List Str → List Document × List Str
  | [] => ([], [])
  | d :: rest =>
    if w.exists_path d = false then
      ((scanDirs w rest).1, (str "  Warning: Directory not found: " ++ d) :: (scanDirs w rest).2)
    else
      let docs := (w.readDirJava d).map tagCode
      ((docs ++ (scanDirs w rest).1),
       (str "  Indexed " ++ str (toString docs.length) ++ str " files from " ++ d)
         :: (scanDirs w rest).2)

/-- The default source directories (lines 86-90). -/
def defaultSourceDirs : List Str :=
  [str "src/main/java/com/matching", str "agent/src/main/java/com/matching"]

/-- `MatchingEngineRAG.index_source_code` (lines 84-122).  Collects
documents over the configured directories, raises a `ValueError` when
no documents were found, and assigns the code-index handle only after
`from_documents` returns. -/
def index_source_code (w : World) (st : RAGState) (source_dirs : Option (List Str)) :
    RAGState × List Str × Except PyErr Unit :=
  let dirs := match source_dirs with | none => defaultSourceDirs | some ds => ds
  let scan := scanDirs w dirs
  let documents := scan.1
  let header := str "Indexing source code..."
  if documents = [] then
    (st, header :: scan.2, .error (.valueError (str "No source code files found to index")))
  else
    match w.fromDocuments documents with
    | .error m => (st, header :: scan.2, .error (.collaborator m))
    | .ok idx =>
      ({ st with code_index := some idx },
       header :: scan.2
         ++ [str "Indexed " ++ str (toString documents.length) ++ str " source code files"],
       .ok ())

/-- The grounding prompt of `query_instrumentation` (lines 135-144):
a fixed vocabulary preamble followed by the question. -/
def instrPrompt (q : Str) : Str :=
  str "Based on the instrumentation log data, answer the following question.\nThe log contains execution traces with:\n- Function metadata (UUID mappings to function names and descriptions)\n- ORDER_IN events (incoming orders with orderId, side, orderType, qty, price)\n- CALL events (function calls with UUIDs)\n- EXEC_REPORT events (execution reports with qty, lastQty, cumQty, price)\n- BOOK_ADD events (orders added to book with remainingQty, cumQty)\n- SNAPSHOT events (order book state after each order)\n\nQuestion: " ++ q

/-- The grounding prompt of `query_code` (lines 160-168). -/
def codePrompt (q : Str) : Str :=
  str "Based on the Java source code for the matching engine, answer the following question.\nThe codebase contains:\n- Matching engine core logic (order matching, execution)\n- Order book implementation (price-time priority)\n- Model classes (Order, ExecutionReport, Side, OrderType, ExecutionType)\n- CSV I/O handlers\n- Java agent for instrumentation\n\nQuestion: " ++ q

/-- The synthesis prompt of `query_both` (lines 186-196): both
per-corpus answers, labeled by source, followed by the question. -/
def combinedPrompt (instr_response code_response q : Str) : Str :=
  str "I have information from two sources about a matching engine:\n\n1. From the execution instrumentation log:\n"
    ++ instr_response
    ++ str "\n\n2. From the source code:\n"
    ++ code_response
    ++ str "\n\nBased on both sources, provide a comprehensive answer to: "
    ++ q
    ++ str "\n\nSynthesize the information from both the runtime execution data and the code implementation."

/-- The not-indexed error of `query_instrumentation` (line 127). -/
def notIndexedInstrMsg : Str :=
  str "Instrumentation log not indexed. Call index_instrumentation_log() first."

/-- The not-indexed error of `query_code` (line 152). -/
def notIndexedCodeMsg : Str :=
  str "Source code not indexed. Call index_source_code() first."

/-- The not-indexed error of `query_both` (line 176). -/
def notIndexedBothMsg : Str := str "Both indices must be created first"

/-- `MatchingEngineRAG.query_instrumentation` (lines 124-147): raise if
the instrumentation index does not exist, otherwise issue one retrieval
query-engine call (top-K 5) with the grounding prompt.  The method never
assigns to the session object; it returns the answer and the outbound
call trace. -/
def query_instrumentation (w : World) (st : RAGState) (q : Str) :
    Except PyErr Str × List CallEvent :=
  match st.instrumentation_index with
  | none => (.error (.valueError notIndexedInstrMsg), [])
  | some idx =>
    (liftEx (w.engineQuery idx 5 (instrPrompt q)), [.engineQuery idx 5 (instrPrompt q)])

/-- `MatchingEngineRAG.query_code` (lines 149-171): the analogue for
the code index. -/
def query_code (w : World) (st : RAGState) (q : Str) :
    Except PyErr Str × List CallEvent :=
  match st.code_index with
  | none => (.error (.valueError notIndexedCodeMsg), [])
  | some idx =>
    (liftEx (w.engineQuery idx 5 (codePrompt q)), [.engineQuery idx 5 (codePrompt q)])

/-- `MatchingEngineRAG.query_both` (lines 173-206): raise if either
index is missing; otherwise query the instrumentation index, then the
code index, then issue one chat-completion call on the synthesis prompt
built from both answers, returning its result. -/
def query_both (w : World) (st : RAGState) (q : Str) :
    Except PyErr Str × List CallEvent :=
  if st.instrumentation_index = none ∨ st.code_index = none then
    (.error (.valueError notIndexedBothMsg), [])
  else
    match query_instrumentation w st q with
    | (.error e, t1) => (.error e, t1)
    | (.ok instr_response, t1) =>
      match query_code w st q with
      | (.error e, t2) => (.error e, t1 ++ t2)
      | (.ok code_response, t2) =>
        let combined_query := combinedPrompt instr_response code_response q
        (liftEx (w.llmChat combined_query), t1 ++ t2 ++ [.llmChat combined_query])

/-- The dispatch decision of the interactive loop. -/
inductive LineAction where
  | skip
  | quit
  | instrQ (q : Str)
  | codeQ (q : Str)
  | bothQ (q : Str)
deriving DecidableEq

/-- The input-classification chain of `main` (lines 247-279): strip the
line; blank lines are skipped; a line equal to `/quit` exits; a
recognized mode prefix is removed (and the remainder stripped again)
and dispatched to the matching engine; everything else goes to the
both-corpora query with the whole stripped line as the question. -/
def parseStripped (user_input : Str) : LineAction :=
  if user_input = [] then .skip
  else if user_input = str "/quit" then .quit
  else if (str "/instr ").isPrefixOf user_input then .instrQ (pyStrip (user_input.drop 7))
  else if (str "/code ").isPrefixOf user_input then .codeQ (pyStrip (user_input.drop 6))
  else if (str "/both ").isPrefixOf user_input then .bothQ (pyStrip (user_input.drop 6))
  else .bothQ user_input

/-- The full input classification: `input(...).strip()` followed by the
chain above. -/
def parseLine (raw : Str) : LineAction :=
  parseStripped (pyStrip raw)

/-- Whether one loop iteration keeps the session alive. -/
inductive LoopResult where
  | again
  | stop
deriving DecidableEq

/-- The lines printed after a dispatched query: the mode banner, then
either the answer or the caught exception (lines 257-279 and the
handler at lines 284-285). -/
def respLines (banner : Str) (r : Except PyErr Str) : List Str :=
  match r with
  | .ok resp => [banner, str "\n" ++ resp]
  | .error e => [banner, str "\n❌ Error: " ++ pyErrMsg e]

/-- One iteration of the interactive loop of `main` (lines 245-285):
classify the line, dispatch, print the answer, and catch any exception
from the dispatched call, printing it and continuing.  The query
methods never assign to the session object, so the state component of
the result is the input state in every branch. -/
def loopStep (w : World) (st : RAGState) (raw : Str) :
    RAGState × LoopResult × List Str × List CallEvent :=
  match parseLine raw with
  | .skip => (st, .again, [], [])
  | .quit => (st, .stop, [str "\n👋 Goodbye!"], [])
  | .instrQ q =>
    let r := query_instrumentation w st q
    (st, .again, respLines (str "\n📊 Querying instrumentation log...") r.1, r.2)
  | .codeQ q =>
    let r := query_code w st q
    (st, .again, respLines (str "\n💻 Querying source code...") r.1, r.2)
  | .bothQ q =>
    let r := query_both w st q
    (st, .again, respLines (str "\n🔄 Querying both sources...") r.1, r.2)

/-- Result of the startup phase of `main`: either the process exited
with a status code, or the session is ready with both indices built. -/
inductive MainResult where
  | exited (code : Nat)
  | ready (st : RAGState)
deriving DecidableEq

/-- The banner separator printed by `main` (line 213). -/
def bannerLine : Str := List.replicate 70 '='

/-- The credential help printed when initialization fails
(lines 222-224). -/
def credentialHelpLines : List Str :=
  [str "\nPlease set the following environment variables:",
   str "  export ANTHROPIC_API_KEY=\x27your-key\x27",
   str "  export OPENAI_API_KEY=\x27your-key\x27"]

/-- The startup phase of `main` (lines 209-242): print the banner,
initialize the session — on a `ValueError` print the error and the
credential help and exit with status 1 before any indexing — then
index the instrumentation log and the source code in that order,
exiting with status 1 if either build fails, and otherwise report the
ready session. -/
def mainStartup (w : World) : MainResult × List Str :=
  let banner := [bannerLine, str "Matching Engine RAG Pipeline", bannerLine]
  match rag_init w none none with
  | .error e =>
    (.exited 1, banner ++ [str "\n❌ Error: " ++ pyErrMsg e] ++ credentialHelpLines)
  | .ok st0 =>
    let r1 := index_instrumentation_log w st0 (str "instrumentation.log")
    match r1.2.2 with
    | .error e =>
      (.exited 1,
       banner ++ [str "\n📚 Indexing data..."] ++ r1.2.1
         ++ [str "\n❌ Error indexing: " ++ pyErrMsg e])
    | .ok _ =>
      let r2 := index_source_code w r1.1 none
      match r2.2.2 with
      | .error e =>
        (.exited 1,
         banner ++ [str "\n📚 Indexing data..."] ++ r1.2.1 ++ r2.2.1
           ++ [str "\n❌ Error indexing: " ++ pyErrMsg e])
      | .ok _ =>
        (.ready r2.1,
         banner ++ [str "\n📚 Indexing data..."] ++ r1.2.1 ++ r2.2.1
           ++ [str "\n✅ RAG pipeline ready!"])

/-- C1: for every question, when both indices exist, `query_both`
first issues the instrumentation-corpus engine call, then the
code-corpus engine call (strictly in that order), then exactly one
further reasoning (chat) call whose prompt contains both prior answers
verbatim as substrings, and returns that final call's result. -/
theorem query_both_protocol_c1 (w : World) (st : RAGState) (q : Str)
    (i c : Index) (a1 a2 : Str)
    (hi : st.instrumentation_index = some i) (hc : st.code_index = some c)
    (h1 : w.engineQuery i 5 (instrPrompt q) = .ok a1)
    (h2 : w.engineQuery c 5 (codePrompt q) = .ok a2) :
    query_both w st q =
      (liftEx (w.llmChat (combinedPrompt a1 a2 q)),
       [.engineQuery i 5 (instrPrompt q), .engineQuery c 5 (codePrompt q),
        .llmChat (combinedPrompt a1 a2 q)]) ∧
    a1 <:+: combinedPrompt a1 a2 q ∧ a2 <:+: combinedPrompt a1 a2 q := by
  refine ⟨?_, ?_, ?_⟩
  · simp [query_both, query_instrumentation, query_code, hi, hc, h1, h2, liftEx]
  · exact ⟨str "I have information from two sources about a matching engine:\n\n1. From the execution instrumentation log:\n",
      str "\n\n2. From the source code:\n" ++ a2
        ++ str "\n\nBased on both sources, provide a comprehensive answer to: " ++ q
        ++ str "\n\nSynthesize the information from both the runtime execution data and the code implementation.",
      by simp [combinedPrompt]⟩
  · exact ⟨str "I have information from two sources about a matching engine:\n\n1. From the execution instrumentation log:\n"
        ++ a1 ++ str "\n\n2. From the source code:\n",
      str "\n\nBased on both sources, provide a comprehensive answer to: " ++ q
        ++ str "\n\nSynthesize the information from both the runtime execution data and the code implementation.",
      by simp [combinedPrompt]⟩

/-- C2: each query operation raises its not-indexed `ValueError`
exactly when the required index handle does not exist:
`query_instrumentation` for the instrumentation index, `query_code`
for the code index, and `query_both` when either is missing. -/
theorem query_not_indexed_c2 (w : World) (st : RAGState) (q : Str) :
    ((query_instrumentation w st q).1 = .error (.valueError notIndexedInstrMsg)
        ↔ st.instrumentation_index = none) ∧
    ((query_code w st q).1 = .error (.valueError notIndexedCodeMsg)
        ↔ st.code_index = none) ∧
    ((query_both w st q).1 = .error (.valueError notIndexedBothMsg)
        ↔ (st.instrumentation_index = none ∨ st.code_index = none)) := by
  refine ⟨?_, ?_, ?_⟩
  · cases him : st.instrumentation_index with
    | none => simp [query_instrumentation, him]
    | some i =>
      cases hq : w.engineQuery i 5 (instrPrompt q) <;>
        simp [query_instrumentation, him, hq, liftEx]
  · cases hcm : st.code_index with
    | none => simp [query_code, hcm]
    | some c =>
      cases hq : w.engineQuery c 5 (codePrompt q) <;>
        simp [query_code, hcm, hq, liftEx]
  · by_cases hmiss : st.instrumentation_index = none ∨ st.code_index = none
    · simp [query_both, hmiss]
    · push_neg at hmiss
      obtain ⟨hi, hc⟩ := hmiss
      obtain ⟨i, him⟩ := Option.ne_none_iff_exists'.mp hi
      obtain ⟨c, hcm⟩ := Option.ne_none_iff_exists'.mp hc
      simp only [query_both, him, hcm]
      rw [if_neg (by simp)]
      cases hq1 : w.engineQuery i 5 (instrPrompt q) with
      | error m => simp [query_instrumentation, him, hq1, liftEx]
      | ok a1 =>
        cases hq2 : w.engineQuery c 5 (codePrompt q) with
        | error m =>
          simp [query_instrumentation, query_code, him, hcm, hq1, hq2, liftEx]
        | ok a2 =>
          cases hq3 : w.llmChat (combinedPrompt a1 a2 q) <;>
            simp [query_instrumentation, query_code, him, hcm, hq1, hq2, hq3, liftEx]

/-- Witness for C1: a concrete world and session with both indices. -/
def wC1 : World :=
  { env := fun _ => some (str "k"),
    exists_path := fun _ => true,
    readFile := fun _ => str "LOG",
    readDirJava := fun _ => [{ text := str "class A", metadata := [] }],
    fromDocuments := fun _ => .ok { id := 0 },
    engineQuery := fun i _ _ => if i.id = 1 then .ok (str "A1") else .ok (str "A2"),
    llmChat := fun _ => .ok (str "FINAL") }

/-- Witness session for C1: both indices exist. -/
def stC1 : RAGState :=
  { anthropic_api_key := some (str "k"), openai_api_key := some (str "k"),
    instrumentation_index := some { id := 1 }, code_index := some { id := 2 } }

/-- Witness for C1: at the concrete world, the trace is exactly the
two engine calls followed by one chat call whose prompt contains both
answers. -/
theorem query_both_protocol_c1_witness :
    (query_both wC1 stC1 (str "q")).2 =
      [.engineQuery { id := 1 } 5 (instrPrompt (str "q")),
       .engineQuery { id := 2 } 5 (codePrompt (str "q")),
       .llmChat (combinedPrompt (str "A1") (str "A2") (str "q"))] ∧
    str "A1" <:+: combinedPrompt (str "A1") (str "A2") (str "q") ∧
    str "A2" <:+: combinedPrompt (str "A1") (str "A2") (str "q") := by
  have h := query_both_protocol_c1 wC1 stC1 (str "q") { id := 1 } { id := 2 }
    (str "A1") (str "A2") rfl rfl rfl rfl
  exact ⟨by rw [h.1], h.2.1, h.2.2⟩

/-- Witness for C2: at a session with no instrumentation index and a
built code index, the not-indexed errors occur accordingly. -/
theorem query_not_indexed_c2_witness :
    (query_instrumentation wC1
        { anthropic_api_key := some (str "k"), openai_api_key := some (str "k"),
          instrumentation_index := none, code_index := some { id := 2 } }
        (str "q")).1 = .error (.valueError notIndexedInstrMsg) ∧
    (query_both wC1
        { anthropic_api_key := some (str "k"), openai_api_key := some (str "k"),
          instrumentation_index := none, code_index := some { id := 2 } }
        (str "q")).1 = .error (.valueError notIndexedBothMsg) := by
  refine ⟨?_, ?_⟩
  · exact (query_not_indexed_c2 wC1 _ (str "q")).1.mpr rfl
  · exact (query_not_indexed_c2 wC1 _ (str "q")).2.2.mpr (Or.inl rfl)

/-- Python truthiness of `None`. -/
theorem truthy_none : truthy (none : Option Str) = false := rfl

set_option maxRecDepth 20000 in
/-- C3: when both required credentials are unset, startup fails before
any indexing occurs and exits with status 1; the printed output names
both missing credentials, and contains no indexing output. -/
theorem startup_missing_credentials_c3 (w : World)
    (ha : truthy (w.env (str "ANTHROPIC_API_KEY")) = false)
    (_ho : truthy (w.env (str "OPENAI_API_KEY")) = false) :
    mainStartup w =
      (.exited 1,
       [bannerLine, str "Matching Engine RAG Pipeline", bannerLine,
        str "\n❌ Error: ANTHROPIC_API_KEY must be set",
        str "\nPlease set the following environment variables:",
        str "  export ANTHROPIC_API_KEY=\x27your-key\x27",
        str "  export OPENAI_API_KEY=\x27your-key\x27"]) ∧
    str "ANTHROPIC_API_KEY" <:+: (mainStartup w).2.flatten ∧
    str "OPENAI_API_KEY" <:+: (mainStartup w).2.flatten ∧
    ¬ str "Indexing" <:+: (mainStartup w).2.flatten := by
  have hmain : mainStartup w =
      (.exited 1,
       [bannerLine, str "Matching Engine RAG Pipeline", bannerLine,
        str "\n❌ Error: ANTHROPIC_API_KEY must be set",
        str "\nPlease set the following environment variables:",
        str "  export ANTHROPIC_API_KEY=\x27your-key\x27",
        str "  export OPENAI_API_KEY=\x27your-key\x27"]) := by
    have hinit : rag_init w none none
        = .error (.valueError (str "ANTHROPIC_API_KEY must be set")) := by
      simp only [rag_init, pyOr, truthy_none, Bool.false_eq_true, if_false]
      rw [if_pos ha]
    simp only [mainStartup, hinit, pyErrMsg, credentialHelpLines]
    decide
  refine ⟨hmain, ?_, ?_, ?_⟩
  · rw [hmain]; decide
  · rw [hmain]; decide
  · rw [hmain]; decide

/-- Witness world for C3: both credentials unset. -/
def wC3 : World :=
  { env := fun _ => none,
    exists_path := fun _ => false,
    readFile := fun _ => [],
    readDirJava := fun _ => [],
    fromDocuments := fun _ => .error (str "down"),
    engineQuery := fun _ _ _ => .error (str "down"),
    llmChat := fun _ => .error (str "down") }

/-- Witness for C3: with every environment variable unset, startup
exits with status 1 and the output names both credentials. -/
theorem startup_missing_credentials_c3_witness :
    (mainStartup wC3).1 = .exited 1 ∧
    str "ANTHROPIC_API_KEY" <:+: (mainStartup wC3).2.flatten ∧
    str "OPENAI_API_KEY" <:+: (mainStartup wC3).2.flatten := by
  have h := startup_missing_credentials_c3 wC3 rfl rfl
  exact ⟨by rw [h.1], h.2.1, h.2.2.1⟩

theorem scanDirs_warning_mem (w : World) (dirs : List Str) (d : Str)
    (hd : d ∈ dirs) (hne : w.exists_path d = false) :
    (str "  Warning: Directory not found: " ++ d) ∈ (scanDirs w dirs).2 := by
  induction dirs with
  | nil => cases hd
  | cons a rest ih =>
    rcases List.mem_cons.mp hd with h | h
    · subst h
      simp [scanDirs, hne]
    · by_cases ha : w.exists_path a = false
      · simp only [scanDirs, if_pos ha]
        exact List.mem_cons_of_mem _ (ih h)
      · simp only [scanDirs, if_neg ha]
        exact List.mem_cons_of_mem _ (ih h)

theorem scanDirs_filter (w : World) (dirs : List Str) :
    (scanDirs w (dirs.filter (fun d => w.exists_path d))).1 = (scanDirs w dirs).1 := by
  induction dirs with
  | nil => rfl
  | cons a rest ih =>
    by_cases ha : w.exists_path a = false
    · simp only [List.filter_cons, ha, if_false, Bool.false_eq_true]
      rw [ih]
      simp [scanDirs, ha]
    · have ha' : w.exists_path a = true := by revert ha; cases w.exists_path a <;> simp
      simp only [List.filter_cons, ha', if_true]
      simp only [scanDirs, ha', if_neg (by simp : ¬ (true = false))]
      rw [ih]

/-- C4: loading the source tree skips every directory that does not
exist with a warning and collects documents only from the remaining
directories; the empty-corpus `ValueError` is raised exactly when the
combined collection is empty, and in that case the session state — in
particular the code-index handle — is unchanged. -/
theorem source_tree_loading_c4 (w : World) (st : RAGState) (dirs : List Str) :
    (∀ d ∈ dirs, w.exists_path d = false →
      (str "  Warning: Directory not found: " ++ d) ∈ (index_source_code w st (some dirs)).2.1) ∧
    (scanDirs w (dirs.filter (fun d => w.exists_path d))).1 = (scanDirs w dirs).1 ∧
    ((index_source_code w st (some dirs)).2.2
        = .error (.valueError (str "No source code files found to index"))
      ↔ (scanDirs w dirs).1 = []) ∧
    ((scanDirs w dirs).1 = [] → (index_source_code w st (some dirs)).1 = st) := by
  refine ⟨?_, scanDirs_filter w dirs, ?_, ?_⟩
  · intro d hd hne
    have hmem := scanDirs_warning_mem w dirs d hd hne
    by_cases hdoc : (scanDirs w dirs).1 = []
    · simp only [index_source_code, if_pos hdoc]
      exact List.mem_cons_of_mem _ hmem
    · simp only [index_source_code, if_neg hdoc]
      cases hfd : w.fromDocuments (scanDirs w dirs).1 with
      | error m =>
        simp only [hfd]
        exact List.mem_cons_of_mem _ hmem
      | ok idx =>
        simp only [hfd]
        exact List.mem_cons_of_mem _ (List.mem_append_left _ hmem)
  · by_cases hdoc : (scanDirs w dirs).1 = []
    · simp [index_source_code, hdoc]
    · simp only [index_source_code, if_neg hdoc]
      cases hfd : w.fromDocuments (scanDirs w dirs).1 <;> simp [hfd, hdoc]
  · intro hdoc
    simp [index_source_code, hdoc]

/-- Witness world for C4: no directory exists. -/
def wC4 : World :=
  { env := fun _ => some (str "k"),
    exists_path := fun _ => false,
    readFile := fun _ => [],
    readDirJava := fun _ => [],
    fromDocuments := fun _ => .ok { id := 0 },
    engineQuery := fun _ _ _ => .error (str "down"),
    llmChat := fun _ => .error (str "down") }

/-- Witness session for C4 and C5: a fresh session, no index built. -/
def stFresh : RAGState :=
  { anthropic_api_key := some (str "k"), openai_api_key := some (str "k"),
    instrumentation_index := none, code_index := none }

/-- Witness for C4: a configured directory that does not exist is
skipped with a warning, the empty corpus raises the `ValueError`, and
the code-index handle stays nonexistent. -/
theorem source_tree_loading_c4_witness :
    (str "  Warning: Directory not found: " ++ str "src")
      ∈ (index_source_code wC4 stFresh (some [str "src"])).2.1 ∧
    (index_source_code wC4 stFresh (some [str "src"])).2.2
      = .error (.valueError (str "No source code files found to index")) ∧
    (index_source_code wC4 stFresh (some [str "src"])).1 = stFresh := by
  have h := source_tree_loading_c4 wC4 stFresh [str "src"]
  exact ⟨h.1 (str "src") (by simp) rfl, h.2.2.1.mpr rfl, h.2.2.2 rfl⟩

theorem index_instrumentation_log_error_state (w : World) (st : RAGState)
    (log_path : Str) (e : PyErr)
    (he : (index_instrumentation_log w st log_path).2.2 = .error e) :
    (index_instrumentation_log w st log_path).1 = st := by
  by_cases hex : w.exists_path log_path = false
  · simp [index_instrumentation_log, hex]
  · simp only [index_instrumentation_log, if_neg hex] at he ⊢
    cases hfd : w.fromDocuments [instrDocument log_path (w.readFile log_path)] with
    | error m => simp [hfd]
    | ok idx => rw [hfd] at he; simp at he

theorem index_source_code_none_eq (w : World) (st : RAGState) :
    index_source_code w st none = index_source_code w st (some defaultSourceDirs) := rfl

theorem index_source_code_error_state (w : World) (st : RAGState)
    (dirs : List Str) (e : PyErr)
    (he : (index_source_code w st (some dirs)).2.2 = .error e) :
    (index_source_code w st (some dirs)).1 = st := by
  by_cases hdoc : (scanDirs w dirs).1 = []
  · simp [index_source_code, hdoc]
  · simp only [index_source_code, if_neg hdoc] at he ⊢
    cases hfd : w.fromDocuments (scanDirs w dirs).1 with
    | error m => simp [hfd]
    | ok idx => rw [hfd] at he; simp at he

/-- C5: a failed build call (missing trace file, empty corpus, or a
collaborator error during construction) leaves the session state — in
particular the corresponding index handle — exactly as it was, so a
handle that did not exist before the call still does not exist after
it, and no partially built index is ever reachable. -/
theorem failed_build_state_c5 (w : World) (st : RAGState) (log_path : Str)
    (source_dirs : Option (List Str)) :
    (∀ e, (index_instrumentation_log w st log_path).2.2 = .error e →
      (index_instrumentation_log w st log_path).1 = st) ∧
    (∀ e, (index_source_code w st source_dirs).2.2 = .error e →
      (index_source_code w st source_dirs).1 = st) ∧
    (st.instrumentation_index = none →
      ∀ e, (index_instrumentation_log w st log_path).2.2 = .error e →
        (index_instrumentation_log w st log_path).1.instrumentation_index = none) ∧
    (st.code_index = none →
      ∀ e, (index_source_code w st source_dirs).2.2 = .error e →
        (index_source_code w st source_dirs).1.code_index = none) := by
  have hsrc : ∀ e, (index_source_code w st source_dirs).2.2 = .error e →
      (index_source_code w st source_dirs).1 = st := by
    cases source_dirs with
    | none =>
      intro e he
      rw [index_source_code_none_eq] at he ⊢
      exact index_source_code_error_state w st defaultSourceDirs e he
    | some ds => exact index_source_code_error_state w st ds
  refine ⟨index_instrumentation_log_error_state w st log_path, hsrc, ?_, ?_⟩
  · intro hnone e he
    rw [index_instrumentation_log_error_state w st log_path e he]
    exact hnone
  · intro hnone e he
    rw [hsrc e he]
    exact hnone

/-- Witness world for C5: the trace file exists but the index
construction collaborator fails; no source directory exists. -/
def wC5 : World :=
  { env := fun _ => some (str "k"),
    exists_path := fun p => p = str "instrumentation.log",
    readFile := fun _ => str "LOG",
    readDirJava := fun _ => [],
    fromDocuments := fun _ => .error (str "embedding failure"),
    engineQuery := fun _ _ _ => .error (str "down"),
    llmChat := fun _ => .error (str "down") }

/-- Witness for C5: at the concrete failing world both build calls
fail and leave the fresh session unchanged, with both handles still
nonexistent. -/
theorem failed_build_state_c5_witness :
    (index_instrumentation_log wC5 stFresh (str "instrumentation.log")).1 = stFresh ∧
    (index_source_code wC5 stFresh (some [str "src"])).1.code_index = none := by
  have h := failed_build_state_c5 wC5 stFresh (str "instrumentation.log") (some [str "src"])
  exact ⟨h.1 (.collaborator (str "embedding failure")) rfl, h.2.2.2 rfl
    (.valueError (str "No source code files found to index")) rfl⟩

theorem parseStripped_quit_iff (s : Str) : parseStripped s = .quit ↔ s = str "/quit" := by
  constructor
  · intro h
    by_contra hne
    simp only [parseStripped] at h
    split_ifs at h
  · intro h
    subst h
    decide

/-- C6: one loop iteration leaves the session state (both index
handles) unchanged in every branch, terminates only on the exit token,
and an error from the dispatched query operation is caught, printed to
the user, and the loop continues. -/
theorem loop_error_containment_c6 (w : World) (st : RAGState) (raw : Str) :
    (loopStep w st raw).1 = st ∧
    ((loopStep w st raw).2.1 = .stop ↔ pyStrip raw = str "/quit") ∧
    (∀ q e, parseLine raw = .instrQ q → (query_instrumentation w st q).1 = .error e →
      (loopStep w st raw).2.1 = .again ∧
      (str "\n❌ Error: " ++ pyErrMsg e) ∈ (loopStep w st raw).2.2.1) ∧
    (∀ q e, parseLine raw = .codeQ q → (query_code w st q).1 = .error e →
      (loopStep w st raw).2.1 = .again ∧
      (str "\n❌ Error: " ++ pyErrMsg e) ∈ (loopStep w st raw).2.2.1) ∧
    (∀ q e, parseLine raw = .bothQ q → (query_both w st q).1 = .error e →
      (loopStep w st raw).2.1 = .again ∧
      (str "\n❌ Error: " ++ pyErrMsg e) ∈ (loopStep w st raw).2.2.1) := by
  have hdef : parseLine raw = parseStripped (pyStrip raw) := rfl
  refine ⟨?_, ?_, ?_, ?_, ?_⟩
  · cases hp : parseLine raw <;> simp [loopStep, hp]
  · constructor
    · intro hstop
      cases hp : parseLine raw with
      | quit => exact (parseStripped_quit_iff _).mp (hdef ▸ hp)
      | skip => simp [loopStep, hp] at hstop
      | instrQ q => simp [loopStep, hp] at hstop
      | codeQ q => simp [loopStep, hp] at hstop
      | bothQ q => simp [loopStep, hp] at hstop
    · intro hq
      have hquit : parseLine raw = .quit := by
        rw [hdef]
        exact (parseStripped_quit_iff _).mpr hq
      simp [loopStep, hquit]
  · intro q e hp he
    simp [loopStep, hp, he, respLines]
  · intro q e hp he
    simp [loopStep, hp, he, respLines]
  · intro q e hp he
    simp [loopStep, hp, he, respLines]

/-- Witness world for C6: a built session whose retrieval engine fails
at query time. -/
def wC6 : World :=
  { env := fun _ => some (str "k"),
    exists_path := fun _ => true,
    readFile := fun _ => str "LOG",
    readDirJava := fun _ => [],
    fromDocuments := fun _ => .ok { id := 0 },
    engineQuery := fun _ _ _ => .error (str "boom"),
    llmChat := fun _ => .error (str "boom") }

/-- Witness for C6: a failed instrumentation query is caught, reported
and the loop continues with the session state unchanged. -/
theorem loop_error_containment_c6_witness :
    (loopStep wC6 stC1 (str "/instr x")).1 = stC1 ∧
    (loopStep wC6 stC1 (str "/instr x")).2.1 = .again ∧
    (str "\n❌ Error: " ++ pyErrMsg (.collaborator (str "boom")))
      ∈ (loopStep wC6 stC1 (str "/instr x")).2.2.1 := by
  have h := loop_error_containment_c6 wC6 stC1 (str "/instr x")
  have hp : parseLine (str "/instr x") = .instrQ (str "x") := by decide
  have hq := h.2.2.1 (str "x") (.collaborator (str "boom")) hp rfl
  exact ⟨h.1, hq.1, hq.2⟩

theorem lookup_setMeta_self (m : List (Str × Str)) (k v : Str) :
    (setMeta m k v).lookup k = some v := by
  simp [setMeta, List.lookup]

theorem lookup_filter_ne (m : List (Str × Str)) (k k' : Str) (h : k' ≠ k) :
    (m.filter (fun p => p.1 ≠ k)).lookup k' = m.lookup k' := by
  induction m with
  | nil => rfl
  | cons a rest ih =>
    simp only [decide_not] at ih ⊢
    rw [List.filter_cons]
    by_cases ha : a.1 = k
    · rw [if_neg (by simp [ha])]
      rw [ih]
      have hk : (k' == a.1) = false := by
        rw [ha]
        exact beq_false_of_ne h
      simp [List.lookup, hk]
    · rw [if_pos (by simp [ha])]
      simp only [List.lookup]
      cases hkk : k' == a.1 <;> simp [hkk, ih]

theorem lookup_setMeta_other (m : List (Str × Str)) (k v k' : Str) (h : k' ≠ k) :
    (setMeta m k v).lookup k' = m.lookup k' := by
  have hk : (k' == k) = false := beq_false_of_ne h
  simp only [setMeta, List.lookup, hk]
  exact lookup_filter_ne m k k' h

theorem tagCode_lookup (d : Document) :
    (tagCode d).metadata.lookup (str "source") = some (str "source_code") ∧
    (tagCode d).metadata.lookup (str "language") = some (str "java") := by
  constructor
  · simp only [tagCode]
    rw [lookup_setMeta_other _ _ _ _ (by decide)]
    exact lookup_setMeta_self _ _ _
  · exact lookup_setMeta_self _ _ _

theorem scanDirs_tagged (w : World) (dirs : List Str) :
    ∀ d ∈ (scanDirs w dirs).1,
      d.metadata.lookup (str "source") = some (str "source_code") ∧
      d.metadata.lookup (str "language") = some (str "java") := by
  induction dirs with
  | nil => simp [scanDirs]
  | cons a rest ih =>
    intro d hd
    by_cases ha : w.exists_path a = false
    · simp only [scanDirs, if_pos ha] at hd
      exact ih d hd
    · simp only [scanDirs, if_neg ha] at hd
      rcases List.mem_append.mp hd with h | h
      · obtain ⟨d0, _, rfl⟩ := List.mem_map.mp h
        exact tagCode_lookup d0
      · exact ih d h

/-- C8 as stated is false on the code: the trace document's `source`
metadata value is `instrumentation_log`, which is neither `trace` nor
`code`. -/
theorem document_source_tag_c8_counterexample :
    (instrDocument (str "instrumentation.log") (str "LOG")).metadata.lookup (str "source")
      = some (str "instrumentation_log") ∧
    str "instrumentation_log" ≠ str "trace" ∧
    str "instrumentation_log" ≠ str "code" := by
  refine ⟨?_, by decide, by decide⟩
  simp [instrDocument, List.lookup]

/-- C8 amended: every loaded document carries the required metadata
key `source`, whose value is `instrumentation_log` for the document
built from the trace artifact and `source_code` for every document
collected from the source tree, the latter together with the language
tag `java`. -/
theorem document_source_tag_c8_amended (log_path content : Str) (w : World)
    (dirs : List Str) :
    (instrDocument log_path content).metadata.lookup (str "source")
      = some (str "instrumentation_log") ∧
    ∀ d ∈ (scanDirs w dirs).1,
      d.metadata.lookup (str "source") = some (str "source_code") ∧
      d.metadata.lookup (str "language") = some (str "java") := by
  refine ⟨?_, scanDirs_tagged w dirs⟩
  simp [instrDocument, List.lookup]

/-- Witness world for C8: one existing directory with one reader
document whose metadata starts out empty. -/
def wC8 : World :=
  { env := fun _ => some (str "k"),
    exists_path := fun _ => true,
    readFile := fun _ => str "LOG",
    readDirJava := fun _ => [{ text := str "class A", metadata := [] }],
    fromDocuments := fun _ => .ok { id := 0 },
    engineQuery := fun _ _ _ => .error (str "down"),
    llmChat := fun _ => .error (str "down") }

/-- Witness for the amended C8 at a concrete world and directory
list. -/
theorem document_source_tag_c8_witness :
    (instrDocument (str "instrumentation.log") (str "LOG")).metadata.lookup (str "source")
      = some (str "instrumentation_log") ∧
    ((scanDirs wC8 [str "src"]).1.head?.map
        (fun d => d.metadata.lookup (str "source"))) = some (some (str "source_code")) := by
  have h := document_source_tag_c8_amended (str "instrumentation.log") (str "LOG") wC8 [str "src"]
  refine ⟨h.1, ?_⟩
  have hd := h.2 (tagCode { text := str "class A", metadata := [] }) (by decide)
  rw [show (scanDirs wC8 [str "src"]).1
      = [tagCode { text := str "class A", metadata := [] }] from rfl]
  simp [hd.1]

theorem isPrefixOf_ne_nil {p s : Str} (hp : p.isPrefixOf s = true) (hne : p ≠ []) :
    s ≠ [] := by
  intro hs
  subst hs
  cases p with
  | nil => exact hne rfl
  | cons a t => simp [List.isPrefixOf] at hp

theorem prefix_ne_quit {p s : Str} (hp : p.isPrefixOf s = true)
    (hno : p.isPrefixOf (str "/quit") = false) : s ≠ str "/quit" := by
  intro hs
  rw [hs] at hp
  rw [hp] at hno
  cases hno

theorem prefix_excl {p1 : Str} (p2 : Str) {s : Str} (h1 : p1.isPrefixOf s = true)
    (hn1 : ¬ p1 <+: p2) (hn2 : ¬ p2 <+: p1) : p2.isPrefixOf s = false := by
  cases h : p2.isPrefixOf s with
  | false => rfl
  | true =>
    rcases List.prefix_or_prefix_of_prefix (List.isPrefixOf_iff_prefix.mp h1)
        (List.isPrefixOf_iff_prefix.mp h) with hc | hc
    · exact absurd hc hn1
    · exact absurd hc hn2

/-- C9: in the interactive loop, a blank line (after trimming) is a
no-op, a line equal to the exit token terminates the loop, a line
beginning with a recognized mode prefix is dispatched to the
corresponding engine with the prefix stripped, and any other non-blank
line is dispatched with both-corpora semantics. -/
theorem session_parse_c9 (raw : Str) :
    (pyStrip raw = [] → parseLine raw = .skip) ∧
    (pyStrip raw = str "/quit" → parseLine raw = .quit) ∧
    ((str "/instr ").isPrefixOf (pyStrip raw) = true →
      parseLine raw = .instrQ (pyStrip ((pyStrip raw).drop 7))) ∧
    ((str "/code ").isPrefixOf (pyStrip raw) = true →
      parseLine raw = .codeQ (pyStrip ((pyStrip raw).drop 6))) ∧
    ((str "/both ").isPrefixOf (pyStrip raw) = true →
      parseLine raw = .bothQ (pyStrip ((pyStrip raw).drop 6))) ∧
    (pyStrip raw ≠ [] → pyStrip raw ≠ str "/quit" →
      (str "/instr ").isPrefixOf (pyStrip raw) = false →
      (str "/code ").isPrefixOf (pyStrip raw) = false →
      (str "/both ").isPrefixOf (pyStrip raw) = false →
      parseLine raw = .bothQ (pyStrip raw)) := by
  have hdef : parseLine raw = parseStripped (pyStrip raw) := rfl
  refine ⟨?_, ?_, ?_, ?_, ?_, ?_⟩
  · intro h
    rw [hdef, h]
    decide
  · intro h
    rw [hdef, h]
    decide
  · intro h
    rw [hdef]
    have hne := isPrefixOf_ne_nil h (by decide)
    have hnq := prefix_ne_quit h (by decide)
    simp only [parseStripped, if_neg hne, if_neg hnq, h, if_true]
  · intro h
    rw [hdef]
    have hne := isPrefixOf_ne_nil h (by decide)
    have hnq := prefix_ne_quit h (by decide)
    have hni := prefix_excl (str "/instr ") h (by decide) (by decide)
    simp only [parseStripped, if_neg hne, if_neg hnq, hni, Bool.false_eq_true, if_false,
      h, if_true]
  · intro h
    rw [hdef]
    have hne := isPrefixOf_ne_nil h (by decide)
    have hnq := prefix_ne_quit h (by decide)
    have hni := prefix_excl (str "/instr ") h (by decide) (by decide)
    have hnc := prefix_excl (str "/code ") h (by decide) (by decide)
    simp only [parseStripped, if_neg hne, if_neg hnq, hni, hnc, Bool.false_eq_true,
      if_false, h, if_true]
  · intro h1 h2 h3 h4 h5
    rw [hdef]
    simp only [parseStripped, if_neg h1, if_neg h2, h3, h4, h5, Bool.false_eq_true,
      if_false]

/-- Witness for C9: one concrete line per branch of the
classification. -/
theorem session_parse_c9_witness :
    parseLine (str "  ") = .skip ∧
    parseLine (str " /quit ") = .quit ∧
    parseLine (str "/instr what") = .instrQ (str "what") ∧
    parseLine (str "/code what") = .codeQ (str "what") ∧
    parseLine (str "/both what") = .bothQ (str "what") ∧
    parseLine (str "hello") = .bothQ (str "hello") := by
  refine ⟨?_, ?_, ?_, ?_, ?_, ?_⟩
  · exact (session_parse_c9 (str "  ")).1 (by decide)
  · exact (session_parse_c9 (str " /quit ")).2.1 (by decide)
  · rw [(session_parse_c9 (str "/instr what")).2.2.1 (by decide)]
    decide
  · rw [(session_parse_c9 (str "/code what")).2.2.2.1 (by decide)]
    decide
  · rw [(session_parse_c9 (str "/both what")).2.2.2.2.1 (by decide)]
    decide
  · rw [(session_parse_c9 (str "hello")).2.2.2.2.2 (by decide) (by decide) (by decide)
      (by decide) (by decide)]
    decide

/-- C10: a bare command token with no trailing space is not dispatched
to a single-corpus engine and produces no unrecognized-command report;
the whole line, token included, is forwarded verbatim as the question
to the both-corpora operation. -/
theorem bare_command_token_c10 (w : World) (st : RAGState) :
    parseLine (str "/instr") = .bothQ (str "/instr") ∧
    parseLine (str "/code") = .bothQ (str "/code") ∧
    parseLine (str "/both") = .bothQ (str "/both") ∧
    loopStep w st (str "/instr") =
      (st, .again,
       respLines (str "\n🔄 Querying both sources...") (query_both w st (str "/instr")).1,
       (query_both w st (str "/instr")).2) ∧
    loopStep w st (str "/code") =
      (st, .again,
       respLines (str "\n🔄 Querying both sources...") (query_both w st (str "/code")).1,
       (query_both w st (str "/code")).2) ∧
    loopStep w st (str "/both") =
      (st, .again,
       respLines (str "\n🔄 Querying both sources...") (query_both w st (str "/both")).1,
       (query_both w st (str "/both")).2) := by
  refine ⟨by decide, by decide, by decide, ?_, ?_, ?_⟩
  · simp only [loopStep, show parseLine (str "/instr") = .bothQ (str "/instr") from by decide]
  · simp only [loopStep, show parseLine (str "/code") = .bothQ (str "/code") from by decide]
  · simp only [loopStep, show parseLine (str "/both") = .bothQ (str "/both") from by decide]
